import Mathlib

/-!
Shallow embedding of the core of `src/epaper_photoframe.ino` (ESP32-C6
e-paper photo frame): the dual-controller panel bus driver, the panel
state machine (reset / init / clear / refresh / sleep / displayBitmap),
the busy-wait timing policy, the SD image pipeline
(`displayImageFromSD`), and the network-role resolution
(`connectToWiFi` / `establishNetwork` / `setup` / `loop`).

Machine bytes are modelled as `Nat` (the source only ever holds values
below 256 in the relevant variables; where the source masks with
`& 0xFF` the model masks with `&&& 0xFF`).  Each driver member function
is translated into the list of externally observable actions it
performs, in source order.  Time is modelled by counting the
milliseconds of the explicit `delay` calls, which are the only
time-consuming statements in the busy-wait loops.
-/

namespace PhotoFrame

/-- One of the two display controller ICs, identified in the source by
its chip-select pin (`EPD_CS_M` = master, `EPD_CS_S` = slave). -/
inductive Controller
  | master
  | slave
deriving DecidableEq

/-- One observable action of the driver, in source order:
`cmd c b` is `sendCommand(cs_pin_of c, b)`, `dat c b` is
`sendData(cs_pin_of c, b)`, `wait` is a call to `waitUntilIdle()`
(which touches only the BUSY input and `delay`, never the bus),
`delayMs n` is `delay(n)`, `pwr`/`rst` are `digitalWrite` on the
power-enable and reset lines, and `logInvalid` is the error log emitted
when `displayBitmap` rejects its argument. -/
inductive Act
  | cmd (c : Controller) (b : Nat)
  | dat (c : Controller) (b : Nat)
  | wait
  | delayMs (n : Nat)
  | pwr (high : Bool)
  | rst (high : Bool)
  | logInvalid
deriving DecidableEq

/-- Source: `#define EPD_WIDTH 1600`. -/
def EPD_WIDTH : Nat := 1600

/-- Source: `#define EPD_HEIGHT 1200`. -/
def EPD_HEIGHT : Nat := 1200

/-- Source: `#define EPD_HALF_WIDTH 800`. -/
def EPD_HALF_WIDTH : Nat := 800

namespace EPaperDisplay

/-- Transaction trace of `sendCommand(cs_pin, command)`. -/
def sendCommand (c : Controller) (b : Nat) : List Act := [Act.cmd c b]

/-- Transaction trace of `sendData(cs_pin, data)`. -/
def sendData (c : Controller) (b : Nat) : List Act := [Act.dat c b]

/-- Trace of `reset()`: power-enable high, pulse the reset line with the
source's delays. -/
def resetActs : List Act :=
  [Act.pwr true, Act.delayMs 10, Act.rst true, Act.delayMs 20,
   Act.rst false, Act.delayMs 2, Act.rst true, Act.delayMs 20]

/-- Trace of `initializeIC(cs_pin)`: software reset `0x12`, panel
setting `0x00`/`0x1F`, resolution `0x61` with half-width and height as
two big-endian byte pairs, VCOM interval `0x50`/`0x97`. -/
def initializeIC (c : Controller) : List Act :=
  sendCommand c 0x12 ++ [Act.delayMs 10] ++
  sendCommand c 0x00 ++ sendData c 0x1F ++
  sendCommand c 0x61 ++
  sendData c ((EPD_HALF_WIDTH >>> 8) &&& 0xFF) ++
  sendData c (EPD_HALF_WIDTH &&& 0xFF) ++
  sendData c ((EPD_HEIGHT >>> 8) &&& 0xFF) ++
  sendData c (EPD_HEIGHT &&& 0xFF) ++
  sendCommand c 0x50 ++ sendData c 0x97

/-- Trace of `init()`: `reset()`, `waitUntilIdle()`, then configure the
master controller, then the slave controller. -/
def initActs : List Act :=
  resetActs ++ [Act.wait] ++
  initializeIC Controller.master ++ initializeIC Controller.slave

/-- Trace of the `for` loop in `clear()` that streams `n` all-white
`0xFF` data bytes to controller `c` (one `sendData` per iteration). -/
def whiteLoop (c : Controller) : Nat → List Act
  | 0 => []
  | n + 1 => Act.dat c 0xFF :: whiteLoop c n

/-- Trace of `refresh()`: power-on to master and slave with a wait after
each, display-refresh `0x12` to both, `delay(100)`, final wait. -/
def refreshActs : List Act :=
  sendCommand Controller.master 0x04 ++ [Act.wait] ++
  sendCommand Controller.slave 0x04 ++ [Act.wait] ++
  sendCommand Controller.master 0x12 ++ sendCommand Controller.slave 0x12 ++
  [Act.delayMs 100, Act.wait]

/-- Trace of `sleep()`: power-off to each controller with waits, deep
sleep `0x07` with magic byte `0xA5` to each, power-enable low. -/
def sleepActs : List Act :=
  sendCommand Controller.master 0x02 ++ [Act.wait] ++
  sendCommand Controller.slave 0x02 ++ [Act.wait] ++
  sendCommand Controller.master 0x07 ++ sendData Controller.master 0xA5 ++
  sendCommand Controller.slave 0x07 ++ sendData Controller.slave 0xA5 ++
  [Act.pwr false]

/-- Shape of `clear()`'s trace with the per-controller byte count as a
parameter: start-transmission `0x10` then `n` white bytes for each
controller in master, slave order, then `refresh()`. -/
def clearActsGen (n : Nat) : List Act :=
  sendCommand Controller.master 0x10 ++
  whiteLoop Controller.master n ++
  sendCommand Controller.slave 0x10 ++
  whiteLoop Controller.slave n ++
  refreshActs

/-- Trace of `clear()`: start-transmission `0x10` then
`(EPD_HALF_WIDTH * EPD_HEIGHT) / 8` white bytes for each controller in
master, slave order, then `refresh()`. -/
def clearActs : List Act :=
  sendCommand Controller.master 0x10 ++
  whiteLoop Controller.master (EPD_HALF_WIDTH * EPD_HEIGHT / 8) ++
  sendCommand Controller.slave 0x10 ++
  whiteLoop Controller.slave (EPD_HALF_WIDTH * EPD_HEIGHT / 8) ++
  refreshActs

/-- Trace of the indexed send loop
`for (i = lo; i < hi; i++) sendData(cs, imageData[i]);` in
`displayBitmap`.  `List.getD i 0` models `imageData[i]` (every call in
the program has `i` in bounds, so the default is never read). -/
def sendSeg (c : Controller) (data : List Nat) (i hi : Nat) : List Act :=
  if i < hi then Act.dat c (data.getD i 0) :: sendSeg c data (i + 1) hi
  else []
termination_by hi - i

/-- Trace of `displayBitmap(imageData, dataSize)`.  A null pointer is
`none`; `dataSize` is the separate `int` argument (all call sites pass
the byte count of the buffer).  Null or zero-size input is rejected
with only a log line; otherwise: `init()`, start-transmission to the
master followed by bytes `0 .. dataSize/2 - 1`, start-transmission to
the slave followed by bytes `dataSize/2 .. dataSize - 1`, `refresh()`,
`sleep()`. -/
def displayBitmap (imageData : Option (List Nat)) (dataSize : Nat) : List Act :=
  match imageData with
  | none => [Act.logInvalid]
  | some data =>
    if dataSize = 0 then [Act.logInvalid]
    else
      initActs ++
      sendCommand Controller.master 0x10 ++ sendSeg Controller.master data 0 (dataSize / 2) ++
      sendCommand Controller.slave 0x10 ++ sendSeg Controller.slave data (dataSize / 2) dataSize ++
      refreshActs ++ sleepActs

end EPaperDisplay

/-- Projection of a trace to its bus transactions (the `sendCommand` and
`sendData` actions); delays, waits, power and reset writes and log
lines are dropped. -/
def busTxns (acts : List Act) : List Act :=
  acts.filter fun a =>
    match a with
    | Act.cmd _ _ => true
    | Act.dat _ _ => true
    | _ => false

/-- Number of start-transmission (`0x10`) commands addressed to
controller `c` in a trace. -/
def startTxCount (c : Controller) (acts : List Act) : Nat :=
  acts.count (Act.cmd c 0x10)

/-- Number of display-refresh (`0x12`) commands addressed to the master
controller in a trace; `refresh()` issues exactly one, so this counts
refresh cycles in traces (such as `clear()`'s) that contain no
`initializeIC` software reset. -/
def refreshCycleCount (acts : List Act) : Nat :=
  acts.count (Act.cmd Controller.master 0x12)

/-- Most recent command byte addressed to controller `c` after running
a trace, starting from `last`. -/
def lastCmdOf (c : Controller) (last : Option Nat) : List Act → Option Nat
  | [] => last
  | Act.cmd c' b :: rest => lastCmdOf c (if c' = c then some b else last) rest
  | _ :: rest => lastCmdOf c last rest

/-- Data bytes a trace streams to controller `c` while `c`'s most
recent command is start-transmission `0x10` — i.e. the bytes the
controller latches into its frame memory.  Parameter bytes following
other commands (panel setting, resolution, VCOM, deep sleep) are not
frame bytes. -/
def frameBytesAux (c : Controller) (last : Option Nat) : List Act → List Nat
  | [] => []
  | Act.cmd c' b :: rest => frameBytesAux c (if c' = c then some b else last) rest
  | Act.dat c' b :: rest =>
      if c' = c ∧ last = some 0x10 then b :: frameBytesAux c last rest
      else frameBytesAux c last rest
  | _ :: rest => frameBytesAux c last rest

/-- Frame bytes received by controller `c` over a whole trace, started
with no command yet latched. -/
def frameBytes (c : Controller) (acts : List Act) : List Nat :=
  frameBytesAux c none acts

/-- Abstract state of the two controllers' frame memories: the buffer
being loaded (`bufM`, `bufS`), the visible image latched at the last
display-refresh (`visM`, `visS`) and the most recent command byte each
controller received. -/
structure PanelMem where
  bufM : List Nat
  bufS : List Nat
  visM : List Nat
  visS : List Nat
  lastM : Option Nat
  lastS : Option Nat
deriving DecidableEq

/-- Panel memory semantics of one action: start-transmission `0x10`
resets the addressed controller's load buffer, display-refresh `0x12`
latches its buffer to the visible image, a data byte is appended to the
buffer only while the latest command is `0x10`. -/
def panelStep (s : PanelMem) : Act → PanelMem
  | Act.cmd Controller.master b =>
      { s with lastM := some b,
               bufM := if b = 0x10 then [] else s.bufM,
               visM := if b = 0x12 then s.bufM else s.visM }
  | Act.cmd Controller.slave b =>
      { s with lastS := some b,
               bufS := if b = 0x10 then [] else s.bufS,
               visS := if b = 0x12 then s.bufS else s.visS }
  | Act.dat Controller.master b =>
      if s.lastM = some 0x10 then { s with bufM := s.bufM ++ [b] } else s
  | Act.dat Controller.slave b =>
      if s.lastS = some 0x10 then { s with bufS := s.bufS ++ [b] } else s
  | _ => s

/-- Run a trace against the panel memory model. -/
def runPanel (s : PanelMem) (acts : List Act) : PanelMem :=
  acts.foldl panelStep s

/-- Panel memory after a completed `clear()` of `n` bytes per half:
both halves loaded and visible as all-white (`0xFF`) bytes, both
controllers last commanded with display-refresh. -/
def whitePanel (n : Nat) : PanelMem :=
  { bufM := List.replicate n 0xFF
    bufS := List.replicate n 0xFF
    visM := List.replicate n 0xFF
    visS := List.replicate n 0xFF
    lastM := some 0x12
    lastS := some 0x12 }

/-- One GPIO/SPI level event inside a bus transaction: the
`digitalWrite` calls on the DC and chip-select lines and the byte
clocked by `spiTransfer` (`high = true` is logic HIGH; a chip select is
asserted when LOW).  Actions that touch neither DC, a chip select nor
the SPI data line (delays, busy polling, power and reset writes, log
output) expand to `passive`. -/
inductive Lev
  | setDC (high : Bool)
  | setCS (c : Controller) (high : Bool)
  | xferB (b : Nat)
  | passive
deriving DecidableEq

/-- Pin-level expansion of one action.  `sendCommand` drives DC low,
asserts exactly the addressed controller's select around the single
transferred byte, and deasserts it; `sendData` is identical with DC
high (lines 160-172 of the source). -/
def expand : Act → List Lev
  | Act.cmd c b => [Lev.setDC false, Lev.setCS c false, Lev.xferB b, Lev.setCS c true]
  | Act.dat c b => [Lev.setDC true, Lev.setCS c false, Lev.xferB b, Lev.setCS c true]
  | _ => [Lev.passive]

/-- Pin-level expansion of a whole trace. -/
def expandAll (acts : List Act) : List Lev :=
  (acts.map expand).flatten

/-- Levels currently driven on the two chip-select lines
(`true` = HIGH = deasserted). -/
structure CSState where
  csM : Bool
  csS : Bool
deriving DecidableEq

/-- Chip-select state after `begin()`, which drives both selects HIGH
(lines 232-233 of the source). -/
def beginCS : CSState := { csM := true, csS := true }

/-- Effect of one pin-level event on the chip-select lines. -/
def csStep (s : CSState) : Lev → CSState
  | Lev.setCS Controller.master h => { s with csM := h }
  | Lev.setCS Controller.slave h => { s with csS := h }
  | _ => s

/-- Chip-select state after running a pin-level trace. -/
def csFinal (s : CSState) (ls : List Lev) : CSState :=
  ls.foldl csStep s

/-- Checks a pin-level trace from state `s`: after every event the two
chip selects are never both asserted (LOW), and at the moment each byte
is clocked exactly one chip select is asserted. -/
def csOk (s : CSState) : List Lev → Bool
  | [] => true
  | e :: rest =>
    let s' := csStep s e
    (match e with
     | Lev.xferB _ => (!s.csM) ^^ (!s.csS)
     | _ => true) &&
    (s'.csM || s'.csS) && csOk s' rest

/-- Elapsed milliseconds of the `while (busyState == LOW)` loop body of
`waitUntilIdle()` entered with `t` ms already elapsed: `delay(10)`,
re-read BUSY, break once the elapsed time exceeds the 30000 ms ceiling,
otherwise loop while still busy.  `busy e = true` means the BUSY pin
reads LOW (busy) at `e` ms after the call.  The value returned is the
elapsed time at loop exit. -/
def waitLoop (busy : Nat → Bool) (t : Nat) : Nat :=
  if 30000 < t + 10 then t + 10
  else if busy (t + 10) then waitLoop busy (t + 10)
  else t + 10
termination_by 30010 - t

/-- Total elapsed milliseconds of one `waitUntilIdle()` call: the loop
is entered only if BUSY reads LOW initially, and a final `delay(200)`
always follows. -/
def waitUntilIdle (busy : Nat → Bool) : Nat :=
  (if busy 0 then waitLoop busy 0 else 0) + 200

/-- Source enum `NetworkMode`. -/
inductive NetworkMode
  | sta
  | ap
deriving DecidableEq

/-- The global mutable state the pipeline and network code touch: the
in-memory `current_image`, the persisted preference `current_img`
(SelectedImageName), and the `wifi_configured` /
`access_point_active` flags. -/
structure AppState where
  current_image : String
  persisted_image : String
  wifi_configured : Bool
  access_point_active : Bool
deriving DecidableEq

/-- High-level events of the pipeline and network layer: a station
connection attempt (`WiFi.begin` wait loop), starting the access point,
a call into `epd.displayBitmap` with its exact arguments, writing the
persisted image name, rendering a text screen via `displayText` (which
never calls `displayBitmap`), and the halt when no SD card is found. -/
inductive HEv
  | connectAttempt
  | startAP
  | bitmapCall (img : Option (List Nat)) (n : Nat)
  | persistImage (name : String)
  | textDisplay
  | haltNoSD
deriving DecidableEq

/-- External collaborators of the core, fixed for one boot: the
persisted preferences (`current_img`, `wifi_ssid`, `wifi_pass`), the
station connectivity as a function of whole seconds since
`WiFi.begin`, SD-card presence, the content of each image file on the
card (`none` when `SD.open` fails), whether `malloc` of a given size
succeeds, and how many bytes `file.read` returns for each file. -/
structure Env where
  persistedImage : String
  savedSsid : String
  savedPass : String
  conn : Nat → Bool
  sdOk : Bool
  file : String → Option (List Nat)
  allocOk : Nat → Bool
  readCount : String → Nat

/-- Result of `displayImageFromSD`: the returned boolean, the updated
global state and the high-level events performed. -/
structure ImgResult where
  ok : Bool
  st : AppState
  evs : List HEv
deriving DecidableEq

/-- Model of `displayImageFromSD(filename)` (lines 446-491): open the
file (failure → `false`), `malloc(fileSize)` (failure → `false`), read
it (short read → `false`); otherwise call
`epd.displayBitmap(buffer, fileSize)`, persist the name as
`current_img`, set `current_image` and return `true`. -/
def displayImageFromSD (env : Env) (st : AppState) (filename : String) : ImgResult :=
  match env.file filename with
  | none => ⟨false, st, []⟩
  | some bytes =>
    if env.allocOk bytes.length = false then ⟨false, st, []⟩
    else if env.readCount filename ≠ bytes.length then ⟨false, st, []⟩
    else
      ⟨true,
       { st with persisted_image := filename, current_image := filename },
       [HEv.bitmapCall (some bytes) bytes.length, HEv.persistImage filename]⟩

/-- Exit time (in elapsed seconds) of the wait loop of
`connectToWiFi`: `while (status != CONNECTED && elapsed < 20)
{ delay(1000); elapsed++; }` — `conn k` is the connection status read
`k` seconds after `WiFi.begin`. -/
def connectLoop (conn : Nat → Bool) (elapsed : Nat) : Nat :=
  if conn elapsed then elapsed
  else if elapsed < 20 then connectLoop conn (elapsed + 1)
  else elapsed
termination_by 20 - elapsed

/-- Model of `connectToWiFi(ssid, password)` with the default 20 s
ceiling: run the wait loop, then return whether the status reads
connected at the exit time. -/
def connectToWiFi (conn : Nat → Bool) : Bool :=
  conn (connectLoop conn 0)

/-- Result of `establishNetwork`: the returned `NetworkMode`, the
updated global state and the high-level events performed. -/
structure NetResult where
  mode : NetworkMode
  st : AppState
  evs : List HEv
deriving DecidableEq

/-- Model of `establishNetwork()` (lines 556-584): with a stored SSID,
set `wifi_configured`, attempt one station connection; on success
return `NETWORK_MODE_STA` with the access point inactive; on timeout
clear `wifi_configured` and fall back to the access point.  With no
stored SSID, start the access point directly with no connection
attempt. -/
def establishNetwork (env : Env) (st : AppState) : NetResult :=
  if 0 < env.savedSsid.length then
    let st1 := { st with wifi_configured := true }
    if connectToWiFi env.conn then
      ⟨NetworkMode.sta, { st1 with access_point_active := false }, [HEv.connectAttempt]⟩
    else
      ⟨NetworkMode.ap,
       { st1 with wifi_configured := false, access_point_active := true },
       [HEv.connectAttempt, HEv.startAP]⟩
  else
    ⟨NetworkMode.ap,
     { st with wifi_configured := false, access_point_active := true },
     [HEv.startAP]⟩

/-- Result of `setup()`: final global state, the resolved network mode
(`none` when boot halted before network resolution for lack of an SD
card) and the high-level events performed. -/
structure SetupResult where
  st : AppState
  mode : Option NetworkMode
  evs : List HEv

/-- Model of `setup()` (lines 900-966), restricted to the core: load
`current_img` from preferences, halt on a missing SD card (after
rendering an error text screen), resolve the network role, render a
role-specific text screen, and — only when a saved image exists and
`wifi_configured` is set — display it through `displayImageFromSD`. -/
def setup (env : Env) : SetupResult :=
  let st0 : AppState :=
    { current_image := env.persistedImage, persisted_image := env.persistedImage,
      wifi_configured := false, access_point_active := false }
  if env.sdOk = false then
    ⟨st0, none, [HEv.textDisplay, HEv.haltNoSD]⟩
  else
    let nr := establishNetwork env st0
    if 0 < nr.st.current_image.length ∧ nr.st.wifi_configured = true then
      let ir := displayImageFromSD env nr.st nr.st.current_image
      ⟨ir.st, some nr.mode, nr.evs ++ [HEv.textDisplay] ++ ir.evs⟩
    else
      ⟨nr.st, some nr.mode, nr.evs ++ [HEv.textDisplay]⟩

/-- Model of one iteration of `loop()` (lines 970-1004), restricted to
the core: when `wifi_configured` is set, a saved image exists and the
24-hour refresh interval has elapsed (`dueRefresh`), re-display the
current image; otherwise do nothing observable to the core.  No branch
attempts a station connection. -/
def loopIter (env : Env) (st : AppState) (dueRefresh : Bool) : AppState × List HEv :=
  if st.wifi_configured = true ∧ 0 < st.current_image.length ∧ dueRefresh = true then
    let ir := displayImageFromSD env st st.current_image
    (ir.st, ir.evs)
  else (st, [])

/-- Number of station connection attempts recorded in a trace. -/
def connectAttempts (evs : List HEv) : Nat :=
  evs.count HEv.connectAttempt

/-- Arguments of the `displayBitmap` calls recorded in a trace, in
order. -/
def bitmapCalls (evs : List HEv) : List (Option (List Nat) × Nat) :=
  evs.filterMap fun e =>
    match e with
    | HEv.bitmapCall img n => some (img, n)
    | _ => none

/-- An initial global state, as the globals are initialised in the
source before `setup()` runs. -/
def st0 : AppState :=
  { current_image := "", persisted_image := "",
    wifi_configured := false, access_point_active := false }

/-- Concrete environment holding one zero-byte image file `b.bin`
whose `malloc(0)` succeeds and whose read trivially returns all 0 of
its bytes: the pipeline then hands `displayBitmap` a zero-size frame. -/
def emptyFileEnv : Env :=
  { persistedImage := ""
    savedSsid := ""
    savedPass := ""
    conn := fun _ => false
    sdOk := true
    file := fun name => if name = "b.bin" then some [] else none
    allocOk := fun _ => true
    readCount := fun _ => 0 }

/-- Concrete healthy boot environment: persisted image `x.bin` of three
bytes, stored credentials, immediate station connection, working SD
card, successful allocation and a full read. -/
def bootEnv : Env :=
  { persistedImage := "x.bin"
    savedSsid := "home"
    savedPass := "pw"
    conn := fun _ => true
    sdOk := true
    file := fun name => if name = "x.bin" then some [1, 2, 3] else none
    allocOk := fun _ => true
    readCount := fun name => if name = "x.bin" then 3 else 0 }

/-- The healthy boot environment with a station connection that never
comes up (connect wait times out). -/
def timeoutEnv : Env :=
  { bootEnv with conn := fun _ => false }

section Lemmas

/-- The white-byte loop of `clear()` streams exactly its iteration
count of `0xFF` data bytes. -/
theorem whiteLoop_eq_replicate (c : Controller) :
    ∀ n, EPaperDisplay.whiteLoop c n = List.replicate n (Act.dat c 0xFF) := by
  intro n
  induction n with
  | zero => rfl
  | succ n ih => simp [EPaperDisplay.whiteLoop, ih, List.replicate_succ]

theorem busTxns_append (xs ys : List Act) :
    busTxns (xs ++ ys) = busTxns xs ++ busTxns ys := by
  simp [busTxns, List.filter_append]

theorem busTxns_replicate_dat (c : Controller) (b : Nat) (n : Nat) :
    busTxns (List.replicate n (Act.dat c b)) = List.replicate n (Act.dat c b) := by
  simp [busTxns]

theorem runPanel_append (s : PanelMem) (xs ys : List Act) :
    runPanel s (xs ++ ys) = runPanel (runPanel s xs) ys := by
  simp [runPanel, List.foldl_append]

theorem runPanel_cons (s : PanelMem) (a : Act) (l : List Act) :
    runPanel s (a :: l) = runPanel (panelStep s a) l := rfl

/-- Streaming white bytes to the master while its last command is
start-transmission appends them to its load buffer. -/
theorem runPanel_white_master :
    ∀ (n : Nat) (s : PanelMem), s.lastM = some 0x10 →
      runPanel s (List.replicate n (Act.dat Controller.master 0xFF)) =
        { s with bufM := s.bufM ++ List.replicate n 0xFF } := by
  intro n
  induction n with
  | zero => intro s _; simp [runPanel]
  | succ n ih =>
    intro s hs
    rw [List.replicate_succ]
    have hstep : panelStep s (Act.dat Controller.master 0xFF) =
        { s with bufM := s.bufM ++ [0xFF] } := by
      simp [panelStep, hs]
    rw [runPanel, List.foldl_cons, ← runPanel, hstep,
      ih { s with bufM := s.bufM ++ [0xFF] } (by simp [hs])]
    simp [List.replicate_succ]

/-- Streaming white bytes to the slave while its last command is
start-transmission appends them to its load buffer. -/
theorem runPanel_white_slave :
    ∀ (n : Nat) (s : PanelMem), s.lastS = some 0x10 →
      runPanel s (List.replicate n (Act.dat Controller.slave 0xFF)) =
        { s with bufS := s.bufS ++ List.replicate n 0xFF } := by
  intro n
  induction n with
  | zero => intro s _; simp [runPanel]
  | succ n ih =>
    intro s hs
    rw [List.replicate_succ]
    have hstep : panelStep s (Act.dat Controller.slave 0xFF) =
        { s with bufS := s.bufS ++ [0xFF] } := by
      simp [panelStep, hs]
    rw [runPanel, List.foldl_cons, ← runPanel, hstep,
      ih { s with bufS := s.bufS ++ [0xFF] } (by simp [hs])]
    simp [List.replicate_succ]

/-- Composed form: a start-transmission command to the master followed
by `n` white data bytes loads `n` white bytes into the master buffer. -/
theorem runPanel_start_white_master (n : Nat) (s : PanelMem) (rest : List Act) :
    runPanel s (Act.cmd Controller.master 0x10 ::
        (List.replicate n (Act.dat Controller.master 0xFF) ++ rest)) =
      runPanel { s with lastM := some 0x10, bufM := List.replicate n 0xFF } rest := by
  rw [runPanel_cons]
  have hstep : panelStep s (Act.cmd Controller.master 0x10) =
      { s with lastM := some 0x10, bufM := [] } := by
    simp [panelStep]
  have hw := runPanel_white_master n
    { s with lastM := some 0x10, bufM := ([] : List Nat) } (by simp)
  rw [hstep, runPanel_append, hw]
  simp

/-- Composed form: a start-transmission command to the slave followed by
`n` white data bytes loads `n` white bytes into the slave buffer. -/
theorem runPanel_start_white_slave (n : Nat) (s : PanelMem) (rest : List Act) :
    runPanel s (Act.cmd Controller.slave 0x10 ::
        (List.replicate n (Act.dat Controller.slave 0xFF) ++ rest)) =
      runPanel { s with lastS := some 0x10, bufS := List.replicate n 0xFF } rest := by
  rw [runPanel_cons]
  have hstep : panelStep s (Act.cmd Controller.slave 0x10) =
      { s with lastS := some 0x10, bufS := [] } := by
    simp [panelStep]
  have hw := runPanel_white_slave n
    { s with lastS := some 0x10, bufS := ([] : List Nat) } (by simp)
  rw [hstep, runPanel_append, hw]
  simp

/-- Cons-normal form of the parameterized `clear()` trace. -/
theorem clearActsGen_eq_cons (n : Nat) :
    EPaperDisplay.clearActsGen n =
      Act.cmd Controller.master 0x10 ::
        (List.replicate n (Act.dat Controller.master 0xFF) ++
          (Act.cmd Controller.slave 0x10 ::
            (List.replicate n (Act.dat Controller.slave 0xFF) ++
              EPaperDisplay.refreshActs))) := by
  simp [EPaperDisplay.clearActsGen, EPaperDisplay.sendCommand, whiteLoop_eq_replicate]

/-- The source `clearActs` is the parameterized shape at the source's
`(EPD_HALF_WIDTH * EPD_HEIGHT) / 8` byte count. -/
theorem clearActs_eq_gen :
    EPaperDisplay.clearActs =
      EPaperDisplay.clearActsGen (EPD_HALF_WIDTH * EPD_HEIGHT / 8) := rfl

/-- Running a `clear()`-shaped trace from any panel memory state ends
in the all-white state: no state accumulates between calls. -/
theorem clearGen_white (n : Nat) (s0 : PanelMem) :
    runPanel s0 (EPaperDisplay.clearActsGen n) = whitePanel n := by
  rw [clearActsGen_eq_cons, runPanel_start_white_master, runPanel_start_white_slave]
  simp only [EPaperDisplay.refreshActs, EPaperDisplay.sendCommand,
    List.cons_append, List.nil_append, List.singleton_append, List.append_assoc]
  simp [runPanel, panelStep, whitePanel]

/-- `clear()` itself ends in the all-white state from any start
state. -/
theorem clear_white (s0 : PanelMem) :
    runPanel s0 EPaperDisplay.clearActs =
      whitePanel (EPD_HALF_WIDTH * EPD_HEIGHT / 8) :=
  clearGen_white (EPD_HALF_WIDTH * EPD_HEIGHT / 8) s0

/-- Bus-transaction projection of the parameterized `clear()` trace. -/
theorem busTxns_clearGen (n : Nat) :
    busTxns (EPaperDisplay.clearActsGen n) =
      Act.cmd Controller.master 0x10 ::
        (List.replicate n (Act.dat Controller.master 0xFF) ++
          (Act.cmd Controller.slave 0x10 ::
            (List.replicate n (Act.dat Controller.slave 0xFF) ++
              [Act.cmd Controller.master 0x04, Act.cmd Controller.slave 0x04,
               Act.cmd Controller.master 0x12, Act.cmd Controller.slave 0x12]))) := by
  rw [clearActsGen_eq_cons]
  simp [busTxns, List.filter_append, busTxns_replicate_dat, EPaperDisplay.refreshActs,
    EPaperDisplay.sendCommand]

/-- The parameterized `clear()` trace holds exactly one display-refresh
command to the master controller. -/
theorem refreshCycleCount_clearGen (n : Nat) :
    refreshCycleCount (EPaperDisplay.clearActsGen n) = 1 := by
  rw [refreshCycleCount, clearActsGen_eq_cons]
  simp [EPaperDisplay.refreshActs, EPaperDisplay.sendCommand,
    List.count_append, List.count_replicate, List.count_cons]

end Lemmas

/-- C7: `init()` performs, in order, `reset()`, `waitUntilIdle()`, then
programs the master controller and afterwards the slave controller;
`reset()` issues no bus transaction, and programming each controller is
the software-reset command `0x12`, the panel-setting command `0x00`
with fixed mode byte `0x1F`, the resolution command `0x61` carrying the
half-width 800 and full height 1200 as big-endian byte pairs
`0x03 0x20` and `0x04 0xB0`, and the VCOM/interval command `0x50` with
fixed timing byte `0x97`. -/
theorem c7_init_programs_master_then_slave :
    EPaperDisplay.initActs =
      EPaperDisplay.resetActs ++ [Act.wait] ++
      EPaperDisplay.initializeIC Controller.master ++
      EPaperDisplay.initializeIC Controller.slave
    ∧ busTxns EPaperDisplay.resetActs = []
    ∧ busTxns EPaperDisplay.initActs =
      [Act.cmd Controller.master 0x12,
       Act.cmd Controller.master 0x00, Act.dat Controller.master 0x1F,
       Act.cmd Controller.master 0x61,
       Act.dat Controller.master 0x03, Act.dat Controller.master 0x20,
       Act.dat Controller.master 0x04, Act.dat Controller.master 0xB0,
       Act.cmd Controller.master 0x50, Act.dat Controller.master 0x97,
       Act.cmd Controller.slave 0x12,
       Act.cmd Controller.slave 0x00, Act.dat Controller.slave 0x1F,
       Act.cmd Controller.slave 0x61,
       Act.dat Controller.slave 0x03, Act.dat Controller.slave 0x20,
       Act.dat Controller.slave 0x04, Act.dat Controller.slave 0xB0,
       Act.cmd Controller.slave 0x50, Act.dat Controller.slave 0x97]
    ∧ 0x03 * 256 + 0x20 = EPD_HALF_WIDTH ∧ 0x04 * 256 + 0xB0 = EPD_HEIGHT := by
  refine ⟨rfl, rfl, rfl, rfl, rfl⟩

/-- C8: `clear()` streams, for each controller in master, slave order,
one start-transmission command followed by exactly
`(EPD_HALF_WIDTH * EPD_HEIGHT) / 8 = 120000` bytes of `0xFF`, then the
refresh sequence; running it twice produces two display-refresh cycles,
leaves both controllers' visible halves all-white both times starting
from any panel state (no accumulation), and the byte sequence of the
second call equals that of the first. -/
theorem c8_clear_white_idempotent :
    EPD_HALF_WIDTH * EPD_HEIGHT / 8 = 120000
    ∧ busTxns EPaperDisplay.clearActs =
      Act.cmd Controller.master 0x10 ::
        (List.replicate (EPD_HALF_WIDTH * EPD_HEIGHT / 8)
            (Act.dat Controller.master 0xFF) ++
          (Act.cmd Controller.slave 0x10 ::
            (List.replicate (EPD_HALF_WIDTH * EPD_HEIGHT / 8)
                (Act.dat Controller.slave 0xFF) ++
              [Act.cmd Controller.master 0x04, Act.cmd Controller.slave 0x04,
               Act.cmd Controller.master 0x12, Act.cmd Controller.slave 0x12])))
    ∧ (∀ s0, runPanel s0 EPaperDisplay.clearActs =
        whitePanel (EPD_HALF_WIDTH * EPD_HEIGHT / 8))
    ∧ (∀ s0, runPanel s0 (EPaperDisplay.clearActs ++ EPaperDisplay.clearActs) =
        whitePanel (EPD_HALF_WIDTH * EPD_HEIGHT / 8))
    ∧ refreshCycleCount EPaperDisplay.clearActs = 1
    ∧ refreshCycleCount (EPaperDisplay.clearActs ++ EPaperDisplay.clearActs) = 2
    ∧ (EPaperDisplay.clearActs ++ EPaperDisplay.clearActs).drop
        EPaperDisplay.clearActs.length = EPaperDisplay.clearActs := by
  have hcount : refreshCycleCount EPaperDisplay.clearActs = 1 :=
    refreshCycleCount_clearGen (EPD_HALF_WIDTH * EPD_HEIGHT / 8)
  refine ⟨rfl, busTxns_clearGen (EPD_HALF_WIDTH * EPD_HEIGHT / 8), clear_white,
    ?_, hcount, ?_, List.drop_left _ _⟩
  · intro s0
    rw [runPanel_append, clear_white s0]
    exact clear_white (whitePanel (EPD_HALF_WIDTH * EPD_HEIGHT / 8))
  · rw [refreshCycleCount, List.count_append, ← refreshCycleCount, hcount]

theorem csFinal_append (s : CSState) (xs ys : List Lev) :
    csFinal s (xs ++ ys) = csFinal (csFinal s xs) ys := by
  simp [csFinal, List.foldl_append]

theorem csOk_append (s : CSState) (xs ys : List Lev) :
    csOk s (xs ++ ys) = (csOk s xs && csOk (csFinal s xs) ys) := by
  induction xs generalizing s with
  | nil => simp [csOk, csFinal]
  | cons e rest ih => simp [csOk, csFinal, ih, Bool.and_assoc]

/-- Each single driver action keeps the chip selects legal and hands
them back deasserted: a command or data transaction asserts exactly the
addressed select around its one byte and releases it; every other
action leaves both selects untouched. -/
theorem cs_act_ok (a : Act) :
    csOk beginCS (expand a) = true ∧ csFinal beginCS (expand a) = beginCS := by
  cases a with
  | cmd c b => cases c <;> simp [expand, csOk, csStep, csFinal, beginCS]
  | dat c b => cases c <;> simp [expand, csOk, csStep, csFinal, beginCS]
  | wait => simp [expand, csOk, csStep, csFinal, beginCS]
  | delayMs n => simp [expand, csOk, csStep, csFinal, beginCS]
  | pwr h => simp [expand, csOk, csStep, csFinal, beginCS]
  | rst h => simp [expand, csOk, csStep, csFinal, beginCS]
  | logInvalid => simp [expand, csOk, csStep, csFinal, beginCS]

/-- Any sequence of driver actions, run from the post-`begin()` pin
state, keeps the chip-select invariant at every point and ends with
both selects deasserted. -/
theorem csRun_ok (acts : List Act) :
    csOk beginCS (expandAll acts) = true ∧
      csFinal beginCS (expandAll acts) = beginCS := by
  induction acts with
  | nil => simp [expandAll, csOk, csFinal]
  | cons a rest ih =>
    have hsplit : expandAll (a :: rest) = expand a ++ expandAll rest := by
      simp [expandAll]
    rw [hsplit, csOk_append, csFinal_append, (cs_act_ok a).1, (cs_act_ok a).2]
    simp [ih.1, ih.2]

/-- C6: in every state reachable by running driver transactions from
the post-`begin()` pin state, the two controllers' chip selects are
never both asserted (low) at once; each `sendCommand`/`sendData`
transaction asserts exactly one select around exactly one clocked byte
(the `csOk` check at `xferB`), and deasserts it before the next
transaction begins (`csFinal` returns to the idle state after every
single action). -/
theorem c6_chip_selects_never_both_asserted :
    (∀ acts : List Act, csOk beginCS (expandAll acts) = true) ∧
    (∀ a : Act, csOk beginCS (expand a) = true ∧
      csFinal beginCS (expand a) = beginCS) :=
  ⟨fun acts => (csRun_ok acts).1, cs_act_ok⟩

/-- The busy-wait loop of `waitUntilIdle` exits within 30010 ms when
entered with at most 30000 ms elapsed, for every busy-line behaviour. -/
theorem waitLoop_le (busy : Nat → Bool) :
    ∀ k t, 30001 - t ≤ k → t ≤ 30000 → waitLoop busy t ≤ 30010 := by
  intro k
  induction k with
  | zero =>
    intro t hk ht
    exact absurd ht (by omega)
  | succ k ih =>
    intro t hk ht
    rw [waitLoop]
    split
    · omega
    · split
      · exact ih (t + 10) (by omega) (by omega)
      · omega

/-- On a stuck-busy line the wait loop runs to exactly 30010 ms. -/
theorem waitLoop_stuck (busy : Nat → Bool) (hb : ∀ t, busy t = true) :
    ∀ k, 10 * k ≤ 30000 →
      waitLoop busy (30000 - 10 * k) = 30010 := by
  intro k
  induction k with
  | zero =>
    intro _
    rw [waitLoop]
    norm_num
  | succ k ih =>
    intro h
    have ht : 30000 - 10 * (k + 1) + 10 = 30000 - 10 * k := by omega
    have hc : ¬ (30000 < 30000 - 10 * k) := by omega
    rw [waitLoop, ht, if_neg hc, if_pos (hb _)]
    exact ih (by omega)

/-- C3: `waitUntilIdle` terminates and returns within the 30-second
ceiling plus a bounded epsilon (the final 10 ms poll step plus the
unconditional 200 ms settle delay) for every behaviour of the busy
line; on a line that never deasserts it runs to exactly 30210 ms and
then returns normally (the timeout is a soft failure, not an abort). -/
theorem c3_waitUntilIdle_bounded :
    (∀ busy : Nat → Bool, waitUntilIdle busy ≤ 30000 + 210) ∧
    (∀ busy : Nat → Bool, (∀ t, busy t = true) →
      waitUntilIdle busy = 30210) := by
  constructor
  · intro busy
    rw [waitUntilIdle]
    cases hb : busy 0 with
    | false =>
      rw [if_neg (by simp)]
      omega
    | true =>
      rw [if_pos rfl]
      have := waitLoop_le busy 30001 0 (by omega) (by omega)
      omega
  · intro busy hb
    rw [waitUntilIdle, if_pos (hb 0)]
    have h := waitLoop_stuck busy hb 3000 (by norm_num)
    have h0 : (30000 : Nat) - 10 * 3000 = 0 := by norm_num
    rw [h0] at h
    rw [h]

/-- Witness for C3: the stuck-busy bound applies to the concrete line
that always reads busy, giving exactly 30210 ms. -/
theorem c3_waitUntilIdle_bounded_witness :
    waitUntilIdle (fun _ => true) = 30210 :=
  c3_waitUntilIdle_bounded.2 (fun _ => true) (fun _ => rfl)

/-- The indexed send loop of `displayBitmap` over `[i, i + k)` streams
exactly the `k` bytes of the buffer starting at offset `i`. -/
theorem sendSeg_eq (c : Controller) (data : List Nat) :
    ∀ k i, i + k ≤ data.length →
      EPaperDisplay.sendSeg c data i (i + k) =
        ((data.drop i).take k).map (fun b => Act.dat c b) := by
  intro k
  induction k with
  | zero =>
    intro i _
    rw [EPaperDisplay.sendSeg]
    simp
  | succ k ih =>
    intro i h
    have hi : i < data.length := by omega
    rw [EPaperDisplay.sendSeg, if_pos (by omega)]
    have h1 : i + (k + 1) = (i + 1) + k := by omega
    rw [h1, ih (i + 1) (by omega)]
    rw [List.drop_eq_getElem_cons hi, List.take_succ_cons, List.map_cons,
      List.getD_eq_getElem data 0 hi]

theorem lastCmdOf_append (c : Controller) (last : Option Nat) (xs ys : List Act) :
    lastCmdOf c last (xs ++ ys) = lastCmdOf c (lastCmdOf c last xs) ys := by
  induction xs generalizing last with
  | nil => simp [lastCmdOf]
  | cons a rest ih => cases a <;> simp [lastCmdOf, ih]

theorem frameBytesAux_append (c : Controller) (last : Option Nat) (xs ys : List Act) :
    frameBytesAux c last (xs ++ ys) =
      frameBytesAux c last xs ++ frameBytesAux c (lastCmdOf c last xs) ys := by
  induction xs generalizing last with
  | nil => simp [frameBytesAux, lastCmdOf]
  | cons a rest ih =>
    cases a with
    | cmd c' b => simp [frameBytesAux, lastCmdOf, ih]
    | dat c' b =>
      by_cases hc : c' = c ∧ last = some 0x10 <;>
        simp [frameBytesAux, lastCmdOf, hc, ih]
    | wait => simp [frameBytesAux, lastCmdOf, ih]
    | delayMs n => simp [frameBytesAux, lastCmdOf, ih]
    | pwr h => simp [frameBytesAux, lastCmdOf, ih]
    | rst h => simp [frameBytesAux, lastCmdOf, ih]
    | logInvalid => simp [frameBytesAux, lastCmdOf, ih]

/-- Data bytes to controller `c` while loading: a mapped data segment
addressed to `c` is latched wholesale. -/
theorem frameBytesAux_dat_self (c : Controller) (l : List Nat) :
    frameBytesAux c (some 0x10) (l.map fun b => Act.dat c b) = l := by
  induction l with
  | nil => simp [frameBytesAux]
  | cons b rest ih => simp [frameBytesAux, ih]

/-- A mapped data segment addressed to the other controller latches
nothing into `c`. -/
theorem frameBytesAux_dat_other (c c' : Controller) (hne : c' ≠ c)
    (last : Option Nat) (l : List Nat) :
    frameBytesAux c last (l.map fun b => Act.dat c' b) = [] := by
  induction l with
  | nil => simp [frameBytesAux]
  | cons b rest ih => simp [frameBytesAux, hne, ih]

/-- Data transactions never change the latched command. -/
theorem lastCmdOf_dat (c c' : Controller) (last : Option Nat) (l : List Nat) :
    lastCmdOf c last (l.map fun b => Act.dat c' b) = last := by
  induction l with
  | nil => simp [lastCmdOf]
  | cons b rest ih => simp [lastCmdOf, ih]

/-- `init()` latches no frame bytes into either controller: every data
byte it sends follows a non-`0x10` command. -/
theorem frameBytesAux_init (c : Controller) (last : Option Nat) :
    frameBytesAux c last EPaperDisplay.initActs = [] := by
  cases c <;>
    simp [EPaperDisplay.initActs, EPaperDisplay.initializeIC,
      EPaperDisplay.resetActs, EPaperDisplay.sendCommand, EPaperDisplay.sendData,
      frameBytesAux]

/-- After `init()` both controllers' latched command is the VCOM
command `0x50`, regardless of history. -/
theorem lastCmdOf_init (c : Controller) (last : Option Nat) :
    lastCmdOf c last EPaperDisplay.initActs = some 0x50 := by
  cases c <;>
    simp [EPaperDisplay.initActs, EPaperDisplay.initializeIC,
      EPaperDisplay.resetActs, EPaperDisplay.sendCommand, EPaperDisplay.sendData,
      lastCmdOf]

/-- `refresh()` followed by `sleep()` latches no frame bytes: each
controller receives a non-`0x10` command before any of its data
bytes. -/
theorem frameBytesAux_refresh_sleep (c : Controller) (last : Option Nat) :
    frameBytesAux c last (EPaperDisplay.refreshActs ++ EPaperDisplay.sleepActs) = [] := by
  cases c <;>
    simp [EPaperDisplay.refreshActs, EPaperDisplay.sleepActs,
      EPaperDisplay.sendCommand, EPaperDisplay.sendData, frameBytesAux]

theorem frameBytesAux_cons_cmd (c c' : Controller) (b : Nat) (last : Option Nat)
    (rest : List Act) :
    frameBytesAux c last (Act.cmd c' b :: rest) =
      frameBytesAux c (if c' = c then some b else last) rest := rfl

/-- Structure of a non-rejected `displayBitmap` call at the exact
buffer length: `init()`, then the master start-transmission and the
first half of the buffer, then the slave start-transmission and the
second half, then `refresh()` and `sleep()`. -/
theorem displayBitmap_split (frame : List Nat) (h : 0 < frame.length) :
    EPaperDisplay.displayBitmap (some frame) frame.length =
      EPaperDisplay.initActs ++
        (Act.cmd Controller.master 0x10 ::
          ((frame.take (frame.length / 2)).map (fun b => Act.dat Controller.master b) ++
            (Act.cmd Controller.slave 0x10 ::
              ((frame.drop (frame.length / 2)).map (fun b => Act.dat Controller.slave b) ++
                (EPaperDisplay.refreshActs ++ EPaperDisplay.sleepActs))))) := by
  have hm := sendSeg_eq Controller.master frame (frame.length / 2) 0 (by omega)
  simp only [Nat.zero_add, List.drop_zero] at hm
  have hs := sendSeg_eq Controller.slave frame
    (frame.length - frame.length / 2) (frame.length / 2) (by omega)
  have heq : frame.length / 2 + (frame.length - frame.length / 2) = frame.length := by
    omega
  rw [heq] at hs
  have hlen : (frame.drop (frame.length / 2)).length =
      frame.length - frame.length / 2 := List.length_drop _ _
  rw [← hlen, List.take_length] at hs
  simp only [EPaperDisplay.displayBitmap]
  rw [if_neg (by omega), hm, hs]
  simp only [EPaperDisplay.sendCommand, List.append_assoc, List.singleton_append,
    List.cons_append, List.nil_append]

/-- The frame bytes each controller latches from a non-rejected
`displayBitmap` call: the master receives exactly the first half of the
buffer, the slave exactly the second half. -/
theorem displayBitmap_frameBytes (frame : List Nat) (h : 0 < frame.length) :
    frameBytes Controller.master
        (EPaperDisplay.displayBitmap (some frame) frame.length) =
      frame.take (frame.length / 2) ∧
    frameBytes Controller.slave
        (EPaperDisplay.displayBitmap (some frame) frame.length) =
      frame.drop (frame.length / 2) := by
  rw [frameBytes, frameBytes, displayBitmap_split frame h]
  constructor
  · rw [frameBytesAux_append, frameBytesAux_init, lastCmdOf_init,
      frameBytesAux_cons_cmd, if_pos rfl, frameBytesAux_append,
      frameBytesAux_dat_self, lastCmdOf_dat, frameBytesAux_cons_cmd,
      if_neg (by decide), frameBytesAux_append,
      frameBytesAux_dat_other _ _ (by decide), lastCmdOf_dat,
      frameBytesAux_refresh_sleep]
    simp
  · rw [frameBytesAux_append, frameBytesAux_init, lastCmdOf_init,
      frameBytesAux_cons_cmd, if_neg (by decide), frameBytesAux_append,
      frameBytesAux_dat_other _ _ (by decide), lastCmdOf_dat,
      frameBytesAux_cons_cmd, if_pos rfl, frameBytesAux_append,
      frameBytesAux_dat_self, lastCmdOf_dat, frameBytesAux_refresh_sleep]
    simp

theorem count_start_init (c : Controller) :
    List.count (Act.cmd c 0x10) EPaperDisplay.initActs = 0 := by
  cases c <;> rfl

theorem count_start_refresh_sleep (c : Controller) :
    List.count (Act.cmd c 0x10)
      (EPaperDisplay.refreshActs ++ EPaperDisplay.sleepActs) = 0 := by
  cases c <;> rfl

theorem count_start_map_dat (c c' : Controller) (l : List Nat) :
    List.count (Act.cmd c 0x10) (l.map fun b => Act.dat c' b) = 0 := by
  rw [List.count_eq_zero]
  simp

theorem count_start_refresh (c : Controller) :
    List.count (Act.cmd c 0x10) EPaperDisplay.refreshActs = 0 := by
  cases c <;> rfl

theorem count_start_sleep (c : Controller) :
    List.count (Act.cmd c 0x10) EPaperDisplay.sleepActs = 0 := by
  cases c <;> rfl

theorem count_start_take_map (c c' : Controller) (n : Nat) (l : List Nat) :
    List.count (Act.cmd c 0x10)
      (List.take n (l.map fun b => Act.dat c' b)) = 0 := by
  rw [List.count_eq_zero]
  intro hmem
  have hin := List.take_subset n _ hmem
  simp at hin

theorem count_start_drop_map (c c' : Controller) (n : Nat) (l : List Nat) :
    List.count (Act.cmd c 0x10)
      (List.drop n (l.map fun b => Act.dat c' b)) = 0 := by
  rw [List.count_eq_zero]
  intro hmem
  have hin := List.drop_subset n _ hmem
  simp at hin

/-- A non-rejected `displayBitmap` call contains exactly one
start-transmission command per controller. -/
theorem displayBitmap_startTxCount (frame : List Nat) (h : 0 < frame.length) :
    startTxCount Controller.master
        (EPaperDisplay.displayBitmap (some frame) frame.length) = 1 ∧
    startTxCount Controller.slave
        (EPaperDisplay.displayBitmap (some frame) frame.length) = 1 := by
  rw [startTxCount, startTxCount, displayBitmap_split frame h]
  constructor <;>
    simp [List.count_append, List.count_cons, count_start_init,
      count_start_refresh, count_start_sleep, count_start_map_dat,
      count_start_take_map, count_start_drop_map]

/-- C1: for every frame buffer of exactly `(EPD_WIDTH * EPD_HEIGHT) / 8
= 240000` bytes, `displayBitmap` sends exactly 120000 bytes — the first
half of the buffer, indices `0 .. 119999` — to the master controller
under one start-transmission command, then exactly 120000 bytes —
indices `120000 .. 239999` — to the slave controller under another
start-transmission command, master strictly before slave with no
interleaving (the trace is literally the master block followed by the
slave block), with exactly one start-transmission per controller. -/
theorem c1_displayBitmap_full_frame (frame : List Nat)
    (h : frame.length = 240000) :
    EPaperDisplay.displayBitmap (some frame) 240000 =
      EPaperDisplay.initActs ++
        (Act.cmd Controller.master 0x10 ::
          ((frame.take 120000).map (fun b => Act.dat Controller.master b) ++
            (Act.cmd Controller.slave 0x10 ::
              ((frame.drop 120000).map (fun b => Act.dat Controller.slave b) ++
                (EPaperDisplay.refreshActs ++ EPaperDisplay.sleepActs)))))
    ∧ frameBytes Controller.master
        (EPaperDisplay.displayBitmap (some frame) 240000) = frame.take 120000
    ∧ frameBytes Controller.slave
        (EPaperDisplay.displayBitmap (some frame) 240000) = frame.drop 120000
    ∧ (frame.take 120000).length = 120000
    ∧ (frame.drop 120000).length = 120000
    ∧ startTxCount Controller.master
        (EPaperDisplay.displayBitmap (some frame) 240000) = 1
    ∧ startTxCount Controller.slave
        (EPaperDisplay.displayBitmap (some frame) 240000) = 1 := by
  have h0 : 0 < frame.length := by omega
  have hdiv : frame.length / 2 = 120000 := by omega
  have hsplit := displayBitmap_split frame h0
  have hfb := displayBitmap_frameBytes frame h0
  have hst := displayBitmap_startTxCount frame h0
  rw [hdiv] at hsplit hfb
  rw [h] at hsplit hfb hst
  refine ⟨hsplit, hfb.1, hfb.2, ?_, ?_, hst.1, hst.2⟩
  · rw [List.length_take, h]
    omega
  · rw [List.length_drop, h]

/-- Witness for C1 at the concrete all-sevens frame of 240000 bytes:
the master controller latches exactly the first 120000 bytes. -/
theorem c1_displayBitmap_full_frame_witness :
    (List.replicate 240000 (7 : Nat)).length = 240000 ∧
    frameBytes Controller.master
        (EPaperDisplay.displayBitmap (some (List.replicate 240000 (7 : Nat))) 240000) =
      (List.replicate 240000 (7 : Nat)).take 120000 :=
  ⟨by rw [List.length_replicate],
   (c1_displayBitmap_full_frame _ (by rw [List.length_replicate])).2.1⟩

/-- C10 (implicit): `displayBitmap` performs no size validation — for
every non-null frame of any positive length `n`, even different from
240000, it streams exactly `n / 2` bytes (indices `0 .. n/2 - 1`) to
the master and exactly `n - n / 2` bytes (indices `n/2 .. n - 1`) to
the slave, so all `n` bytes are streamed; for odd `n` the slave
receives one byte more than the master. -/
theorem c10_displayBitmap_any_size (frame : List Nat)
    (h : 0 < frame.length) :
    EPaperDisplay.displayBitmap (some frame) frame.length =
      EPaperDisplay.initActs ++
        (Act.cmd Controller.master 0x10 ::
          ((frame.take (frame.length / 2)).map
              (fun b => Act.dat Controller.master b) ++
            (Act.cmd Controller.slave 0x10 ::
              ((frame.drop (frame.length / 2)).map
                  (fun b => Act.dat Controller.slave b) ++
                (EPaperDisplay.refreshActs ++ EPaperDisplay.sleepActs)))))
    ∧ frameBytes Controller.master
        (EPaperDisplay.displayBitmap (some frame) frame.length) =
        frame.take (frame.length / 2)
    ∧ frameBytes Controller.slave
        (EPaperDisplay.displayBitmap (some frame) frame.length) =
        frame.drop (frame.length / 2)
    ∧ (frame.take (frame.length / 2)).length = frame.length / 2
    ∧ (frame.drop (frame.length / 2)).length =
        frame.length - frame.length / 2
    ∧ (frame.length % 2 = 1 →
        (frame.drop (frame.length / 2)).length =
          (frame.take (frame.length / 2)).length + 1) := by
  have hfb := displayBitmap_frameBytes frame h
  have hst := displayBitmap_startTxCount frame h
  refine ⟨displayBitmap_split frame h, hfb.1, hfb.2, ?_, ?_, ?_⟩
  · rw [List.length_take]
    omega
  · rw [List.length_drop]
  · intro hodd
    rw [List.length_take, List.length_drop]
    omega

/-- Witness for C10 at the concrete three-byte frame `[1, 2, 3]`: the
slave controller latches the second half `[2, 3]` — one byte more than
the master's half. -/
theorem c10_displayBitmap_any_size_witness :
    0 < ([1, 2, 3] : List Nat).length ∧
    frameBytes Controller.slave
        (EPaperDisplay.displayBitmap (some ([1, 2, 3] : List Nat))
          ([1, 2, 3] : List Nat).length) =
      ([1, 2, 3] : List Nat).drop (([1, 2, 3] : List Nat).length / 2) :=
  ⟨by decide, (c10_displayBitmap_any_size _ (by decide)).2.2.1⟩

/-- The station-connect wait loop exits at a time at which the status
reads connected, whenever the status is connected at some poll instant
within the 20-second ceiling. -/
theorem connectLoop_success (conn : Nat → Bool) :
    ∀ k e, 20 - e ≤ k → (∃ j, e ≤ j ∧ j ≤ 20 ∧ conn j = true) →
      conn (connectLoop conn e) = true := by
  intro k
  induction k with
  | zero =>
    intro e hk hex
    rcases hex with ⟨j, hej, hj20, hc⟩
    have he : e = 20 := by omega
    subst he
    have hj : j = 20 := by omega
    subst hj
    rw [connectLoop, if_pos hc]
    exact hc
  | succ k ih =>
    intro e hk hex
    rw [connectLoop]
    by_cases hce : conn e = true
    · rw [if_pos hce]
      exact hce
    · rw [if_neg hce]
      rcases hex with ⟨j, hej, hj20, hc⟩
      have hje : j ≠ e := by
        intro hje
        rw [hje] at hc
        exact hce hc
      by_cases he20 : e < 20
      · rw [if_pos he20]
        exact ih (e + 1) (by omega) ⟨j, by omega, hj20, hc⟩
      · rw [if_neg he20]
        exfalso
        omega

/-- The station-connect wait loop exits within the 20-second ceiling. -/
theorem connectLoop_le (conn : Nat → Bool) :
    ∀ k e, 20 - e ≤ k → e ≤ 20 → connectLoop conn e ≤ 20 := by
  intro k
  induction k with
  | zero =>
    intro e hk he
    have h20 : e = 20 := by omega
    subst h20
    rw [connectLoop]
    by_cases hc : conn 20 = true
    · rw [if_pos hc]
    · rw [if_neg hc, if_neg (by omega)]
  | succ k ih =>
    intro e hk he
    rw [connectLoop]
    by_cases hc : conn e = true
    · rw [if_pos hc]
      omega
    · rw [if_neg hc]
      by_cases h20 : e < 20
      · rw [if_pos h20]
        exact ih (e + 1) (by omega) (by omega)
      · rw [if_neg h20]
        omega

/-- The image pipeline never attempts a station connection on any of
its paths. -/
theorem connectAttempts_displayImageFromSD (env : Env) (st : AppState)
    (f : String) :
    connectAttempts (displayImageFromSD env st f).evs = 0 := by
  cases hf : env.file f with
  | none => simp [displayImageFromSD, hf, connectAttempts]
  | some bytes =>
    simp only [displayImageFromSD, hf]
    split
    · rfl
    · split
      · rfl
      · rfl

/-- C5: network role resolution at boot — with no stored SSID the role
is AccessPoint with `wifi_configured = false` and no station attempt;
with stored credentials and a connection that comes up within the
20-one-second-poll ceiling the role is Station with
`wifi_configured = true` after exactly one attempt; with stored
credentials and no connection within the ceiling the role falls back to
AccessPoint with `wifi_configured = false` after exactly one attempt;
and no iteration of the main loop ever performs a station attempt, so
station mode is not retried within the same run. -/
theorem c5_network_role_resolution (env : Env) (st : AppState) :
    (env.savedSsid.length = 0 →
      (establishNetwork env st).mode = NetworkMode.ap ∧
      (establishNetwork env st).st.wifi_configured = false ∧
      connectAttempts (establishNetwork env st).evs = 0)
    ∧ (0 < env.savedSsid.length → (∃ k, k ≤ 20 ∧ env.conn k = true) →
      (establishNetwork env st).mode = NetworkMode.sta ∧
      (establishNetwork env st).st.wifi_configured = true ∧
      connectAttempts (establishNetwork env st).evs = 1)
    ∧ (0 < env.savedSsid.length → (∀ k, k ≤ 20 → env.conn k = false) →
      (establishNetwork env st).mode = NetworkMode.ap ∧
      (establishNetwork env st).st.wifi_configured = false ∧
      connectAttempts (establishNetwork env st).evs = 1)
    ∧ (∀ dueRefresh, connectAttempts (loopIter env st dueRefresh).2 = 0) := by
  refine ⟨?_, ?_, ?_, ?_⟩
  · intro h0
    rw [establishNetwork, if_neg (by omega)]
    exact ⟨rfl, rfl, rfl⟩
  · intro hpos hex
    have hcw : connectToWiFi env.conn = true := by
      rcases hex with ⟨j, hj, hc⟩
      rw [connectToWiFi]
      exact connectLoop_success env.conn 21 0 (by omega) ⟨j, by omega, hj, hc⟩
    rw [establishNetwork, if_pos hpos, if_pos hcw]
    exact ⟨rfl, rfl, rfl⟩
  · intro hpos hall
    have hcw : connectToWiFi env.conn = false := by
      rw [connectToWiFi]
      exact hall _ (connectLoop_le env.conn 21 0 (by omega) (by omega))
    rw [establishNetwork, if_pos hpos, if_neg (by simp [hcw])]
    exact ⟨rfl, rfl, rfl⟩
  · intro dueRefresh
    rw [loopIter]
    split
    · exact connectAttempts_displayImageFromSD env st st.current_image
    · rfl

/-- Witness for C5: the three resolution branches at concrete
environments — no credentials, immediate connect, and never-connecting
station. -/
theorem c5_network_role_resolution_witness :
    (establishNetwork emptyFileEnv st0).mode = NetworkMode.ap ∧
    (establishNetwork bootEnv st0).mode = NetworkMode.sta ∧
    (establishNetwork bootEnv st0).st.wifi_configured = true ∧
    (establishNetwork timeoutEnv st0).mode = NetworkMode.ap ∧
    (establishNetwork timeoutEnv st0).st.wifi_configured = false :=
  ⟨((c5_network_role_resolution emptyFileEnv st0).1 (by decide)).1,
   ((c5_network_role_resolution bootEnv st0).2.1 (by decide)
      ⟨0, by omega, rfl⟩).1,
   ((c5_network_role_resolution bootEnv st0).2.1 (by decide)
      ⟨0, by omega, rfl⟩).2.1,
   ((c5_network_role_resolution timeoutEnv st0).2.2.1 (by decide)
      (fun _ _ => rfl)).1,
   ((c5_network_role_resolution timeoutEnv st0).2.2.1 (by decide)
      (fun _ _ => rfl)).2.1⟩

/-- C9: round-trip across reboot — when the persisted SelectedImageName
is a non-empty name `X`, the SD card is present, stored credentials
resolve the role to Station (a connection comes up within the ceiling),
and `X`'s file opens, allocates and reads fully, then `setup()` resolves
Station and triggers exactly one `displayBitmap` call, whose argument
is exactly the byte content of `X`. -/
theorem c9_reboot_redisplays_selected (env : Env) (bytes : List Nat)
    (hsd : env.sdOk = true)
    (himg : 0 < env.persistedImage.length)
    (hssid : 0 < env.savedSsid.length)
    (hconn : ∃ k, k ≤ 20 ∧ env.conn k = true)
    (hfile : env.file env.persistedImage = some bytes)
    (halloc : env.allocOk bytes.length = true)
    (hread : env.readCount env.persistedImage = bytes.length) :
    (setup env).mode = some NetworkMode.sta ∧
    bitmapCalls (setup env).evs = [(some bytes, bytes.length)] := by
  have hcw : connectToWiFi env.conn = true := by
    rcases hconn with ⟨j, hj, hc⟩
    rw [connectToWiFi]
    exact connectLoop_success env.conn 21 0 (by omega) ⟨j, by omega, hj, hc⟩
  constructor <;>
    simp [setup, establishNetwork, displayImageFromSD, bitmapCalls,
      hsd, hssid, hcw, hfile, halloc, hread, himg]

/-- Witness for C9 at the concrete healthy boot environment: exactly
one `displayBitmap` call carrying the three bytes of `x.bin`. -/
theorem c9_reboot_redisplays_selected_witness :
    (setup bootEnv).mode = some NetworkMode.sta ∧
    bitmapCalls (setup bootEnv).evs = [(some [1, 2, 3], 3)] :=
  c9_reboot_redisplays_selected bootEnv [1, 2, 3] rfl (by decide) (by decide)
    ⟨0, by omega, rfl⟩ (by decide) rfl (by decide)

/-- C2 counterexample: the claim says a rejected `displayBitmap` call
"returns failure to its caller", but the source function is `void`.
Concretely, with a zero-byte image file whose `malloc(0)` succeeds, the
caller `displayImageFromSD` reaches `displayBitmap(buffer, 0)` — which
performs zero bus transactions — and then observes no failure at all:
it persists the name and returns `true`. -/
theorem c2_counterexample_no_failure_returned :
    (displayImageFromSD emptyFileEnv st0 "b.bin").ok = true ∧
    (displayImageFromSD emptyFileEnv st0 "b.bin").evs =
      [HEv.bitmapCall (some []) 0, HEv.persistImage "b.bin"] ∧
    busTxns (EPaperDisplay.displayBitmap (some []) 0) = [] := by
  refine ⟨rfl, rfl, rfl⟩

/-- C2 (amended): for every call with a null frame or zero size,
`displayBitmap` performs zero bus transactions and no pin or SPI
activity at all, and emits only the rejection log line before
returning; being `void`, it returns no failure indication that its
caller could observe. -/
theorem c2_displayBitmap_invalid_rejected (imageData : Option (List Nat))
    (dataSize : Nat) (h : imageData = none ∨ dataSize = 0) :
    EPaperDisplay.displayBitmap imageData dataSize = [Act.logInvalid] ∧
    busTxns (EPaperDisplay.displayBitmap imageData dataSize) = [] ∧
    expandAll (EPaperDisplay.displayBitmap imageData dataSize) = [Lev.passive] := by
  have hd : EPaperDisplay.displayBitmap imageData dataSize = [Act.logInvalid] := by
    rcases h with h | h
    · rw [h]
      rfl
    · cases imageData with
      | none => rfl
      | some data =>
        rw [h]
        simp [EPaperDisplay.displayBitmap]
  refine ⟨hd, ?_, ?_⟩ <;> rw [hd] <;> rfl

/-- Witness for amended C2 at a null frame of claimed size 5: only the
log line, no bus transaction. -/
theorem c2_displayBitmap_invalid_rejected_witness :
    EPaperDisplay.displayBitmap none 5 = [Act.logInvalid] ∧
    busTxns (EPaperDisplay.displayBitmap none 5) = [] :=
  ⟨(c2_displayBitmap_invalid_rejected none 5 (Or.inl rfl)).1,
   (c2_displayBitmap_invalid_rejected none 5 (Or.inl rfl)).2.1⟩

/-- C4 counterexample: the claim says the name is persisted only after
the display operation fully succeeds.  With a zero-byte image file
whose `malloc(0)` succeeds, the read completes (0 of 0 bytes), the
frame is handed to `displayBitmap`, which rejects it and displays
nothing — yet the pipeline still persists the name and returns
`true`. -/
theorem c4_counterexample_persists_despite_rejected_display :
    (displayImageFromSD emptyFileEnv st0 "b.bin").ok = true ∧
    (displayImageFromSD emptyFileEnv st0 "b.bin").st.persisted_image = "b.bin" ∧
    EPaperDisplay.displayBitmap (some []) 0 = [Act.logInvalid] :=
  ⟨rfl, rfl, rfl⟩

/-- C4 (amended): on file-open failure, allocation failure or short
read, `displayImageFromSD` returns `false` without mutating the
persisted SelectedImageName or the in-memory current image and without
calling `displayBitmap` at all (it never partially displays a frame);
when open, allocation and a full read all succeed it always persists
the name and returns `true` — persistence follows the read completing,
not the display succeeding, so a zero-byte file is persisted even
though `displayBitmap` rejects its frame. -/
theorem c4_pipeline_persists_after_full_read (env : Env) (st : AppState)
    (filename : String) :
    (env.file filename = none →
      displayImageFromSD env st filename = ⟨false, st, []⟩)
    ∧ (∀ bytes, env.file filename = some bytes →
        env.allocOk bytes.length = false →
        displayImageFromSD env st filename = ⟨false, st, []⟩)
    ∧ (∀ bytes, env.file filename = some bytes →
        env.allocOk bytes.length = true →
        env.readCount filename ≠ bytes.length →
        displayImageFromSD env st filename = ⟨false, st, []⟩)
    ∧ (∀ bytes, env.file filename = some bytes →
        env.allocOk bytes.length = true →
        env.readCount filename = bytes.length →
        displayImageFromSD env st filename =
          ⟨true,
           { st with persisted_image := filename, current_image := filename },
           [HEv.bitmapCall (some bytes) bytes.length,
            HEv.persistImage filename]⟩) := by
  refine ⟨?_, ?_, ?_, ?_⟩
  · intro hf
    simp [displayImageFromSD, hf]
  · intro bytes hf ha
    simp [displayImageFromSD, hf, ha]
  · intro bytes hf ha hr
    simp [displayImageFromSD, hf, ha, hr]
  · intro bytes hf ha hr
    simp [displayImageFromSD, hf, ha, hr]

/-- Witness for amended C4 at the healthy environment: a full read of
`x.bin` persists the name, sets the current image and reports
success. -/
theorem c4_pipeline_persists_after_full_read_witness :
    displayImageFromSD bootEnv st0 "x.bin" =
      ⟨true,
       { st0 with persisted_image := "x.bin", current_image := "x.bin" },
       [HEv.bitmapCall (some [1, 2, 3]) 3, HEv.persistImage "x.bin"]⟩ :=
  (c4_pipeline_persists_after_full_read bootEnv st0 "x.bin").2.2.2
    [1, 2, 3] (by decide) rfl (by decide)

end PhotoFrame
